import Mathlib

/-!
Verification development for the contextual retrieval-augmented chat
pipeline of the pdf-manager repository.

The first part embeds the contextual-query construction documented in
CHAT_CONTEXT_FIX.md (the Python snippet building the retrieval query from
recent conversation turns).  The second part models the Chat Turn
Orchestrator described in the specification, and the third part embeds the
frontend ChatInterface component's sendMessage flow.
-/

/-- A chat message as seen by the contextual-query code: a role string
("user" or "assistant") and a content string, mirroring msg.role and
msg.content in the Python snippet. -/
structure HistMsg where
  role : String
  content : String
deriving DecidableEq, Repr

/-- Python list slicing xs[-n:]: the last n elements (the whole list when it
has fewer than n elements). -/
def lastN {α : Type} (n : Nat) (xs : List α) : List α :=
  xs.drop (xs.length - n)

/-- Python sep.join(xs): elements of xs interleaved with sep. -/
def joinWith (sep : String) : List String → String
  | [] => ""
  | [x] => x
  | x :: y :: xs => x ++ sep ++ joinWith sep (y :: xs)

/-- The role-labeled line for one message, mirroring the Python
format string joining msg.role, ": " and msg.content. -/
def roleLine (m : HistMsg) : String :=
  m.role ++ ": " ++ m.content

/-- The conversation_context variable of the snippet: the role-labeled last
five messages joined by newlines. -/
def conversationContext (recent : List HistMsg) : String :=
  joinWith "\n" ((lastN 5 recent).map roleLine)

/-- The contextual_query of CHAT_CONTEXT_FIX.md: when recent_messages is
non-empty, the query is the header "Previous conversation:", the
role-labeled last five messages, and the user message introduced by
"Current question: ".  The empty-history branch is modelled from the spec:
backend/app/main.py is not part of the provided sources, and the spec
states the query degrades to the user text verbatim. -/
def contextualQuery (recent : List HistMsg) (userMessage : String) : String :=
  if recent.isEmpty then userMessage
  else
    "Previous conversation:\n" ++ conversationContext recent
      ++ "\n\nCurrent question: " ++ userMessage

/-- Occurrence of one string inside another, phrased over the underlying
character lists. -/
def occursIn (s t : String) : Prop :=
  ∃ a b : List Char, t.data = a ++ s.data ++ b

theorem occursIn_refl (s : String) : occursIn s s :=
  ⟨[], [], by simp⟩

theorem occursIn_trans {s t v : String} (h1 : occursIn s t) (h2 : occursIn t v) :
    occursIn s v := by
  obtain ⟨a, b, hab⟩ := h1
  obtain ⟨c, d, hcd⟩ := h2
  exact ⟨c ++ a, b ++ d, by simp [hcd, hab]⟩

theorem occursIn_append_left {s t : String} (h : occursIn s t) (p : String) :
    occursIn s (p ++ t) := by
  obtain ⟨a, b, hab⟩ := h
  exact ⟨p.data ++ a, b, by simp [hab]⟩

theorem occursIn_append_right {s t : String} (h : occursIn s t) (q : String) :
    occursIn s (t ++ q) := by
  obtain ⟨a, b, hab⟩ := h
  exact ⟨a, b ++ q.data, by simp [hab]⟩

theorem occursIn_joinWith {sep : String} :
    ∀ {xs : List String} {x : String}, x ∈ xs → occursIn x (joinWith sep xs) := by
  intro xs
  induction xs with
  | nil => intro x hx; cases hx
  | cons h t ih =>
    intro x hx
    rw [List.mem_cons] at hx
    cases t with
    | nil =>
      rcases hx with hx | hx
      · subst hx; exact occursIn_refl x
      · cases hx
    | cons y ys =>
      rcases hx with hx | hx
      · subst hx
        show occursIn x (x ++ sep ++ joinWith sep (y :: ys))
        exact occursIn_append_right (occursIn_append_right (occursIn_refl x) sep) _
      · show occursIn x (h ++ sep ++ joinWith sep (y :: ys))
        exact occursIn_append_left (ih hx) (h ++ sep)

theorem occursIn_roleLine (m : HistMsg) : occursIn m.content (roleLine m) := by
  exact occursIn_append_left (occursIn_refl m.content) (m.role ++ ": ")

/-- Claim C1: for a session with at least one prior message, the retrieval
query is the role-labeled last five recent messages, in their stored
(oldest-first) order, followed by the new user text as a trailing current
question; in particular the query contains every windowed prior message's
text and the new user text, and ends with the current-question suffix. -/
theorem contextualQuery_with_history (recent : List HistMsg) (u : String)
    (h : recent ≠ []) :
    contextualQuery recent u =
      "Previous conversation:\n" ++ joinWith "\n" ((lastN 5 recent).map roleLine)
        ++ "\n\nCurrent question: " ++ u
    ∧ (∀ m ∈ lastN 5 recent, occursIn (roleLine m) (contextualQuery recent u))
    ∧ (∀ m ∈ lastN 5 recent, occursIn m.content (contextualQuery recent u))
    ∧ occursIn u (contextualQuery recent u)
    ∧ (∃ a : List Char,
        (contextualQuery recent u).data = a ++ ("Current question: " ++ u).data) := by
  have hne : recent.isEmpty = false := by
    cases recent with
    | nil => cases h rfl
    | cons a t => rfl
  have hq : contextualQuery recent u =
      "Previous conversation:\n" ++ conversationContext recent
        ++ "\n\nCurrent question: " ++ u := by
    unfold contextualQuery
    rw [hne]
    simp
  have hlab : ∀ m ∈ lastN 5 recent, occursIn (roleLine m) (contextualQuery recent u) := by
    intro m hm
    rw [hq]
    have h1 : occursIn (roleLine m) (conversationContext recent) :=
      occursIn_joinWith (List.mem_map_of_mem roleLine hm)
    have h2 := occursIn_append_left h1 "Previous conversation:\n"
    have h3 := occursIn_append_right h2 "\n\nCurrent question: "
    exact occursIn_append_right h3 u
  refine ⟨by rw [hq]; rfl, hlab, ?_, ?_, ?_⟩
  · intro m hm
    exact occursIn_trans (occursIn_roleLine m) (hlab m hm)
  · rw [hq]
    exact occursIn_append_left (occursIn_refl u) _
  · rw [hq]
    refine ⟨("Previous conversation:\n" ++ conversationContext recent ++ "\n\n").data, ?_⟩
    simp

/-- Witness for C1 at a concrete one-message history. -/
theorem contextualQuery_with_history_witness :
    ([(⟨"user", "hello"⟩ : HistMsg)] ≠ [])
    ∧ (contextualQuery [⟨"user", "hello"⟩] "bye" =
        "Previous conversation:\n"
          ++ joinWith "\n" ((lastN 5 [(⟨"user", "hello"⟩ : HistMsg)]).map roleLine)
          ++ "\n\nCurrent question: " ++ "bye"
      ∧ (∀ m ∈ lastN 5 [(⟨"user", "hello"⟩ : HistMsg)],
          occursIn (roleLine m) (contextualQuery [⟨"user", "hello"⟩] "bye"))
      ∧ (∀ m ∈ lastN 5 [(⟨"user", "hello"⟩ : HistMsg)],
          occursIn m.content (contextualQuery [⟨"user", "hello"⟩] "bye"))
      ∧ occursIn "bye" (contextualQuery [⟨"user", "hello"⟩] "bye")
      ∧ (∃ a : List Char,
          (contextualQuery [⟨"user", "hello"⟩] "bye").data =
            a ++ ("Current question: " ++ "bye").data)) :=
  ⟨by decide, contextualQuery_with_history [⟨"user", "hello"⟩] "bye" (by decide)⟩

/-- Claim C3: for a session with zero prior messages the retrieval query is
the user text verbatim, with nothing added. -/
theorem contextualQuery_no_history (u : String) :
    contextualQuery [] u = u := rfl

/-- The two prior messages of concrete scenario B. -/
def scenarioBRecent : List HistMsg :=
  [⟨"user", "What is the notice period in my lease?"⟩,
   ⟨"assistant", "<prior answer>"⟩]

/-- Counterexample to claim C4: in scenario B the code's contextual query is
not the claimed string, because the code prepends a
"Previous conversation:" header line. -/
theorem scenarioB_query_ne_claimed :
    contextualQuery scenarioBRecent "On which page?" ≠
      "user: What is the notice period in my lease?\nassistant: <prior answer>\n\nCurrent question: On which page?" := by
  decide

/-- Claim C4 amended: in scenario B the contextual query is the claimed
string prefixed with the header line "Previous conversation:". -/
theorem scenarioB_query_eq :
    contextualQuery scenarioBRecent "On which page?" =
      "Previous conversation:\nuser: What is the notice period in my lease?\nassistant: <prior answer>\n\nCurrent question: On which page?" := by
  decide

/-! ## Chat Turn Orchestrator

Modelled from the spec: the backend (backend/app/main.py and the service
modules) is not among the provided sources — only its design document and
its frontend callers are — so the orchestrator below follows the contract
of spec section 4.2 and the error taxonomy of section 7. -/

/-- Message role. -/
inductive Role where
  | user : Role
  | assistant : Role
deriving DecidableEq, Repr, BEq

/-- A persisted chat message: role, text, referenced document ids
(assistant-authored only) and an error mark for the placeholder assistant
message recorded when generation fails. -/
structure Message where
  role : Role
  content : String
  referencedDocs : List Nat
  isError : Bool
deriving DecidableEq, Repr

/-- A chat session: title plus its ordered message list. -/
structure Session where
  title : String
  messages : List Message
deriving DecidableEq, Repr

/-- A retrieved document chunk with its relevance score. -/
structure Chunk where
  docId : Nat
  text : String
  score : Int
deriving DecidableEq, Repr

/-- The ephemeral assembled input to the Response Generator. -/
structure ContextBundle where
  recentMessages : List Message
  chunks : List Chunk
  userText : String
deriving DecidableEq, Repr

/-- Errors of the Context Assembler. -/
inductive BuildError where
  | RetrievalUnavailable : BuildError
deriving DecidableEq, Repr

/-- Errors surfaced by the Orchestrator. -/
inductive ChatError where
  | InvalidInput : ChatError
  | GenerationFailed : ChatError
  | SessionNotFound : ChatError
deriving DecidableEq, Repr

/-- Output of a Response Generator backend. -/
structure GenOutput where
  text : String
  referencedDocumentIds : List Nat
deriving DecidableEq, Repr

/-- A pluggable Response Generator backend; none signals
timeout or unreachable. -/
def Backend : Type := ContextBundle → Option GenOutput

/-- View of a persisted message as the role/content pair the
contextual-query code consumes. -/
def toHist (m : Message) : HistMsg :=
  ⟨(match m.role with | Role.user => "user" | Role.assistant => "assistant"), m.content⟩

/-- Modelled from the spec: Context Assembler build (section 4.1).  The
Document Store is abstracted as the similarity-search function; none
models an unreachable store and fails with RetrievalUnavailable, otherwise
the bundle holds the last five recent messages, the returned chunks and
the raw user text, and the query sent to the store is the contextual
query. -/
def buildCtx (search : String → Option (List Chunk)) (recent : List Message)
    (userText : String) : Except BuildError ContextBundle :=
  match search (contextualQuery (recent.map toHist) userText) with
  | none => Except.error BuildError.RetrievalUnavailable
  | some cs => Except.ok ⟨lastN 5 recent, cs, userText⟩

/-- Modelled from the spec: the Orchestrator absorbs RetrievalUnavailable
by degrading to a conversation-only bundle with an empty chunk list
(section 4.1 failure policy and section 7 propagation policy). -/
def bundleOrDegrade (search : String → Option (List Chunk)) (recent : List Message)
    (userText : String) : ContextBundle :=
  match buildCtx search recent userText with
  | Except.ok b => b
  | Except.error _ => ⟨lastN 5 recent, [], userText⟩

/-- Modelled from the spec: the ordered backend chain of design note 9.2 —
each backend is tried in turn and the first successful completion wins;
none when every backend fails. -/
def tryBackends : List Backend → ContextBundle → Option GenOutput
  | [], _ => none
  | b :: bs, bundle =>
    match b bundle with
    | some out => some out
    | none => tryBackends bs bundle

/-- The user message persisted in step 2 of the turn. -/
def mkUserMessage (text : String) : Message :=
  ⟨Role.user, text, [], false⟩

/-- The assistant message persisted on success in step 6. -/
def assistantOf (out : GenOutput) : Message :=
  ⟨Role.assistant, out.text, out.referencedDocumentIds, false⟩

/-- Modelled from the spec: the user-visible error notice carried by the
placeholder assistant message when all backends fail. -/
def errorNotice : String :=
  "Sorry, I could not generate a response. Please try again."

/-- The error-marked assistant message persisted when all backends fail. -/
def errorMessage : Message :=
  ⟨Role.assistant, errorNotice, [], true⟩

/-- Whether the session already contains a completed turn, i.e. a
non-error assistant message. -/
def hasCompletedTurn (msgs : List Message) : Bool :=
  msgs.any (fun m => m.role == Role.assistant && !m.isError)

/-- Modelled from the spec: title derivation truncates the user's text to a
short title (step 7, "derive a short title from the user's text"); the
truncation acts on the character list. -/
def deriveTitle (text : String) : String :=
  ⟨text.data.take 50⟩

/-- Step-7 guard: derive a title only on the session's first completed turn
when no explicit title exists. -/
def shouldDeriveTitle (sess : Session) : Bool :=
  !hasCompletedTurn sess.messages && sess.title == ""

/-- The result of a successful turn: both persisted messages, the count of
distinct referenced documents, and the optionally updated title. -/
structure TurnResult where
  userMessage : Message
  assistantMessage : Message
  referencedDocumentCount : Nat
  updatedTitle : Option String
deriving DecidableEq, Repr

/-- Modelled from the spec: handleMessage of the Chat Turn Orchestrator
(section 4.2).  Validates the text, persists the user message, builds the
context (absorbing retrieval failure), runs the backend chain, persists
either the assistant message or an error-marked placeholder, derives the
title on the first completed turn, and returns the final session state
together with the turn outcome. -/
def handleMessage (sess : Session) (text : String)
    (search : String → Option (List Chunk)) (backends : List Backend) :
    Session × Except ChatError TurnResult :=
  if text = "" then (sess, Except.error ChatError.InvalidInput)
  else
    match tryBackends backends (bundleOrDegrade search (lastN 10 sess.messages) text) with
    | none =>
      (⟨sess.title, sess.messages ++ [mkUserMessage text, errorMessage]⟩,
       Except.error ChatError.GenerationFailed)
    | some out =>
      if shouldDeriveTitle sess then
        (⟨deriveTitle text, sess.messages ++ [mkUserMessage text, assistantOf out]⟩,
         Except.ok ⟨mkUserMessage text, assistantOf out,
           out.referencedDocumentIds.dedup.length, some (deriveTitle text)⟩)
      else
        (⟨sess.title, sess.messages ++ [mkUserMessage text, assistantOf out]⟩,
         Except.ok ⟨mkUserMessage text, assistantOf out,
           out.referencedDocumentIds.dedup.length, none⟩)

theorem tryBackends_of_all_fail {backends : List Backend} {bundle : ContextBundle}
    (h : ∀ b ∈ backends, ∀ bd, b bd = none) :
    tryBackends backends bundle = none := by
  induction backends with
  | nil => rfl
  | cons b bs ih =>
    show (match b bundle with
      | some out => some out
      | none => tryBackends bs bundle) = none
    rw [h b (List.mem_cons_self b bs) bundle]
    exact ih (fun b' hb' => h b' (List.mem_cons_of_mem b hb'))

/-- Claim C6: a turn with empty text fails with InvalidInput and leaves the
session unchanged — nothing is persisted. -/
theorem handleMessage_empty_input (sess : Session)
    (search : String → Option (List Chunk)) (backends : List Backend) :
    handleMessage sess "" search backends = (sess, Except.error ChatError.InvalidInput) := by
  unfold handleMessage
  rw [if_pos rfl]

/-- Claim C2: when every configured backend fails, the turn fails with
GenerationFailed and the session afterwards holds exactly the old messages
followed by one new user message and then one error-marked assistant
message; the user message is thus persisted and never rolled back. -/
theorem handleMessage_generation_failed (sess : Session) (text : String)
    (search : String → Option (List Chunk)) (backends : List Backend)
    (ht : text ≠ "") (hb : ∀ b ∈ backends, ∀ bd, b bd = none) :
    handleMessage sess text search backends =
      (⟨sess.title, sess.messages ++ [mkUserMessage text, errorMessage]⟩,
       Except.error ChatError.GenerationFailed)
    ∧ (mkUserMessage text).role = Role.user
    ∧ errorMessage.role = Role.assistant
    ∧ errorMessage.isError = true := by
  refine ⟨?_, rfl, rfl, rfl⟩
  unfold handleMessage
  rw [if_neg ht, tryBackends_of_all_fail hb]

/-- Witness for C2 at a concrete session and a single failing backend. -/
theorem handleMessage_generation_failed_witness :
    (("hi" : String) ≠ ""
      ∧ (∀ b ∈ ([fun _ => none] : List Backend), ∀ bd, b bd = none))
    ∧ (handleMessage ⟨"t", []⟩ "hi" (fun _ => some []) [fun _ => none] =
        (⟨"t", [mkUserMessage "hi", errorMessage]⟩,
         Except.error ChatError.GenerationFailed)
      ∧ (mkUserMessage "hi").role = Role.user
      ∧ errorMessage.role = Role.assistant
      ∧ errorMessage.isError = true) :=
  ⟨⟨by decide, fun b hb bd => by rw [List.mem_singleton] at hb; rw [hb]⟩,
   handleMessage_generation_failed ⟨"t", []⟩ "hi" (fun _ => some []) [fun _ => none]
     (by decide) (fun b hb bd => by rw [List.mem_singleton] at hb; rw [hb])⟩

set_option maxRecDepth 8000 in
/-- Claim C8: every successful turn ends with exactly the returned user and
assistant messages persisted (in that order), reports the count of distinct
referenced documents, and when a title update is returned it is the final
session title. -/
theorem handleMessage_success_shape (sess : Session) (text : String)
    (search : String → Option (List Chunk)) (backends : List Backend)
    (s2 : Session) (r : TurnResult)
    (h : handleMessage sess text search backends = (s2, Except.ok r)) :
    s2.messages = sess.messages ++ [r.userMessage, r.assistantMessage]
    ∧ r.userMessage = mkUserMessage text
    ∧ r.assistantMessage.role = Role.assistant
    ∧ r.referencedDocumentCount = r.assistantMessage.referencedDocs.dedup.length
    ∧ (∀ t, r.updatedTitle = some t → s2.title = t) := by
  unfold handleMessage at h
  by_cases ht : text = ""
  · rw [if_pos ht] at h
    exact absurd (congrArg Prod.snd h) (by simp)
  · rw [if_neg ht] at h
    cases hg : tryBackends backends (bundleOrDegrade search (lastN 10 sess.messages) text) with
    | none =>
      rw [hg] at h
      exact absurd (congrArg Prod.snd h) (by simp)
    | some out =>
      rw [hg] at h
      dsimp only at h
      by_cases hd : shouldDeriveTitle sess
      · rw [if_pos hd] at h
        injection h with h1 h2
        injection h2 with h3
        subst h1
        subst h3
        exact ⟨rfl, rfl, rfl, rfl, fun t ht2 => Option.some.inj ht2⟩
      · rw [if_neg hd] at h
        injection h with h1 h2
        injection h2 with h3
        subst h1
        subst h3
        exact ⟨rfl, rfl, rfl, rfl, fun t ht2 => Option.noConfusion ht2⟩

set_option maxRecDepth 4000 in
/-- Witness for C8 at a concrete successful turn. -/
theorem handleMessage_success_shape_witness :
    (handleMessage ⟨"", []⟩ "hello" (fun _ => some [⟨7, "c", 1⟩])
        [fun _ => some ⟨"ans", [7, 7]⟩] =
      (⟨"hello", [mkUserMessage "hello", assistantOf ⟨"ans", [7, 7]⟩]⟩,
       Except.ok ⟨mkUserMessage "hello", assistantOf ⟨"ans", [7, 7]⟩, 1, some "hello"⟩))
    ∧ ([mkUserMessage "hello", assistantOf ⟨"ans", [7, 7]⟩] =
        [] ++ [mkUserMessage "hello", assistantOf ⟨"ans", [7, 7]⟩]
      ∧ mkUserMessage "hello" = mkUserMessage "hello"
      ∧ (assistantOf ⟨"ans", [7, 7]⟩).role = Role.assistant
      ∧ 1 = (assistantOf ⟨"ans", [7, 7]⟩).referencedDocs.dedup.length
      ∧ (∀ t, (some "hello" : Option String) = some t →
          ("hello" : String) = t)) :=
  ⟨rfl,
   handleMessage_success_shape ⟨"", []⟩ "hello" (fun _ => some [⟨7, "c", 1⟩])
     [fun _ => some ⟨"ans", [7, 7]⟩]
     ⟨"hello", [mkUserMessage "hello", assistantOf ⟨"ans", [7, 7]⟩]⟩
     ⟨mkUserMessage "hello", assistantOf ⟨"ans", [7, 7]⟩, 1, some "hello"⟩ rfl⟩

set_option maxRecDepth 8000 in
/-- Claim C5: on the session's first completed turn with no explicit title,
a successful turn sets the derived title and returns it with the turn's
result; and whenever the session title is already non-empty, no turn ever
changes it. -/
theorem handleMessage_title (sess : Session) (text : String)
    (search : String → Option (List Chunk)) (backends : List Backend)
    (s2 : Session) (res : Except ChatError TurnResult)
    (h : handleMessage sess text search backends = (s2, res)) :
    (sess.title ≠ "" → s2.title = sess.title)
    ∧ (∀ out, hasCompletedTurn sess.messages = false → sess.title = "" → text ≠ "" →
        tryBackends backends (bundleOrDegrade search (lastN 10 sess.messages) text) =
          some out →
        s2.title = deriveTitle text
        ∧ res = Except.ok ⟨mkUserMessage text, assistantOf out,
            out.referencedDocumentIds.dedup.length, some (deriveTitle text)⟩) := by
  unfold handleMessage at h
  by_cases ht : text = ""
  · rw [if_pos ht] at h
    injection h with h1 h2
    subst h1
    exact ⟨fun _ => rfl, fun out _ _ hne _ => absurd ht hne⟩
  · rw [if_neg ht] at h
    cases hg : tryBackends backends (bundleOrDegrade search (lastN 10 sess.messages) text) with
    | none =>
      rw [hg] at h
      dsimp only at h
      injection h with h1 h2
      subst h1
      refine ⟨fun _ => rfl, fun out _ _ _ hbo => ?_⟩
      exact Option.noConfusion hbo
    | some out =>
      rw [hg] at h
      dsimp only at h
      by_cases hd : shouldDeriveTitle sess
      · rw [if_pos hd] at h
        injection h with h1 h2
        subst h1
        subst h2
        have hd2 : sess.title = "" := by
          simp only [shouldDeriveTitle, Bool.and_eq_true, beq_iff_eq] at hd
          exact hd.2
        refine ⟨fun hne => absurd hd2 hne, fun out2 _ _ _ hbo => ?_⟩
        injection hbo with hout
        subst hout
        exact ⟨rfl, rfl⟩
      · rw [if_neg hd] at h
        injection h with h1 h2
        subst h1
        subst h2
        refine ⟨fun _ => rfl, fun out2 hturn htitle _ _ => ?_⟩
        have hd3 : shouldDeriveTitle sess = true := by
          simp only [shouldDeriveTitle, Bool.and_eq_true, beq_iff_eq, Bool.not_eq_true']
          exact ⟨hturn, htitle⟩
        exact absurd hd3 hd

set_option maxRecDepth 8000 in
/-- Witness for C5: a first turn on an untitled session sets and returns
the derived title, and a turn on a titled session preserves the title. -/
theorem handleMessage_title_witness :
    (hasCompletedTurn ([] : List Message) = false
      ∧ ("" : String) = ""
      ∧ ("hello" : String) ≠ ""
      ∧ (("hello" : String) = deriveTitle "hello"
        ∧ (Except.ok (⟨mkUserMessage "hello", assistantOf ⟨"ans", [7]⟩, 1, some "hello"⟩ :
              TurnResult) : Except ChatError TurnResult) =
          Except.ok ⟨mkUserMessage "hello", assistantOf ⟨"ans", [7]⟩,
            ([7] : List Nat).dedup.length, some (deriveTitle "hello")⟩))
    ∧ (("keep" : String) ≠ "" → ("keep" : String) = "keep") :=
  ⟨⟨rfl, rfl, by decide,
    (handleMessage_title ⟨"", []⟩ "hello" (fun _ => some []) [fun _ => some ⟨"ans", [7]⟩]
      ⟨"hello", [mkUserMessage "hello", assistantOf ⟨"ans", [7]⟩]⟩
      (Except.ok ⟨mkUserMessage "hello", assistantOf ⟨"ans", [7]⟩, 1, some "hello"⟩)
      rfl).2 ⟨"ans", [7]⟩ rfl rfl (by decide) rfl⟩,
   (handleMessage_title ⟨"keep", []⟩ "hello" (fun _ => some []) [fun _ => some ⟨"ans", [7]⟩]
      ⟨"keep", [mkUserMessage "hello", assistantOf ⟨"ans", [7]⟩]⟩
      (Except.ok ⟨mkUserMessage "hello", assistantOf ⟨"ans", [7]⟩, 1, none⟩)
      rfl).1⟩

/-- Claim C7: with the Document Store unreachable, build fails only with
RetrievalUnavailable, the Orchestrator absorbs the failure by degrading to
a bundle with an empty chunk list and unchanged recent messages and user
text, and the turn still succeeds with a normal (non-error) assistant
message. -/
theorem handleMessage_retrieval_degraded (sess : Session) (text : String)
    (search : String → Option (List Chunk)) (backends : List Backend)
    (out : GenOutput) (s2 : Session) (res : Except ChatError TurnResult)
    (hs : ∀ q, search q = none) (ht : text ≠ "")
    (hb : tryBackends backends ⟨lastN 5 (lastN 10 sess.messages), [], text⟩ = some out)
    (h : handleMessage sess text search backends = (s2, res)) :
    buildCtx search (lastN 10 sess.messages) text =
      Except.error BuildError.RetrievalUnavailable
    ∧ bundleOrDegrade search (lastN 10 sess.messages) text =
        ⟨lastN 5 (lastN 10 sess.messages), [], text⟩
    ∧ ∃ r : TurnResult, res = Except.ok r
        ∧ r.assistantMessage = assistantOf out
        ∧ r.assistantMessage.isError = false := by
  have hbuild : buildCtx search (lastN 10 sess.messages) text =
      Except.error BuildError.RetrievalUnavailable := by
    unfold buildCtx
    rw [hs]
  have hdeg : bundleOrDegrade search (lastN 10 sess.messages) text =
      ⟨lastN 5 (lastN 10 sess.messages), [], text⟩ := by
    unfold bundleOrDegrade
    rw [hbuild]
  refine ⟨hbuild, hdeg, ?_⟩
  unfold handleMessage at h
  rw [if_neg ht, hdeg, hb] at h
  dsimp only at h
  by_cases hd : shouldDeriveTitle sess
  · rw [if_pos hd] at h
    injection h with h1 h2
    subst h2
    exact ⟨_, rfl, rfl, rfl⟩
  · rw [if_neg hd] at h
    injection h with h1 h2
    subst h2
    exact ⟨_, rfl, rfl, rfl⟩

set_option maxRecDepth 8000 in
/-- Witness for C7 at a concrete unreachable store and one succeeding
backend. -/
theorem handleMessage_retrieval_degraded_witness :
    ((∀ q : String, (fun _ : String => (none : Option (List Chunk))) q = none)
      ∧ ("hi" : String) ≠ "")
    ∧ (buildCtx (fun _ => none) (lastN 10 ([] : List Message)) "hi" =
        Except.error BuildError.RetrievalUnavailable
      ∧ bundleOrDegrade (fun _ => none) (lastN 10 ([] : List Message)) "hi" =
          ⟨lastN 5 (lastN 10 ([] : List Message)), [], "hi"⟩
      ∧ ∃ r : TurnResult,
          (Except.ok (⟨mkUserMessage "hi", assistantOf ⟨"ans", [3]⟩, 1, none⟩ :
              TurnResult) : Except ChatError TurnResult) = Except.ok r
          ∧ r.assistantMessage = assistantOf ⟨"ans", [3]⟩
          ∧ r.assistantMessage.isError = false) :=
  ⟨⟨fun _ => rfl, by decide⟩,
   handleMessage_retrieval_degraded ⟨"t", []⟩ "hi" (fun _ => none)
     [fun _ => some ⟨"ans", [3]⟩] ⟨"ans", [3]⟩
     ⟨"t", [mkUserMessage "hi", assistantOf ⟨"ans", [3]⟩]⟩
     (Except.ok ⟨mkUserMessage "hi", assistantOf ⟨"ans", [3]⟩, 1, none⟩)
     (fun _ => rfl) (by decide) rfl rfl⟩

/-! ## Frontend ChatInterface

Embedding of the sendMessage flow of the ChatInterface React component:
its local state, the guard and state changes performed before the POST
request, and the state changes performed when the request settles. -/

/-- The ChatMessage interface of the component. -/
structure FrontendMsg where
  id : Nat
  role : String
  content : String
  referenced_documents : Option (List Nat)
  created_at : String
deriving DecidableEq, Repr

/-- The ChatSession interface of the component. -/
structure FrontendSession where
  id : Nat
  title : String
  created_at : String
  updated_at : Option String
deriving DecidableEq, Repr

/-- The ChatResponse interface of the component: the turn endpoint's
response body. -/
structure ChatResponse where
  user_message : FrontendMsg
  ai_response : FrontendMsg
  context_used : Nat
  session_title : Option String
deriving DecidableEq, Repr

/-- The component state touched by sendMessage. -/
structure ChatState where
  sessions : List FrontendSession
  currentSession : Option FrontendSession
  messages : List FrontendMsg
  newMessage : String
  isSending : Bool
deriving DecidableEq, Repr

/-- JavaScript String.prototype.trim, modelled over the character list:
whitespace is dropped from both ends. -/
def jsTrim (s : String) : String :=
  ⟨((s.data.dropWhile Char.isWhitespace).reverse.dropWhile Char.isWhitespace).reverse⟩

/-- The POST request issued by sendMessage: target session and the
trimmed message text. -/
structure TurnRequest where
  sessionId : Nat
  content : String
deriving DecidableEq, Repr

/-- The synchronous part of sendMessage up to the POST: the early return
when the trimmed input is empty, no session is selected, or a send is in
flight; otherwise the input is cleared, isSending is set, and the request
carrying the trimmed text is issued. -/
def sendMessageStart (st : ChatState) : ChatState × Option TurnRequest :=
  match st.currentSession with
  | none => (st, none)
  | some cs =>
    if jsTrim st.newMessage = "" ∨ st.isSending = true then (st, none)
    else
      ({ st with newMessage := "", isSending := true },
       some ⟨cs.id, jsTrim st.newMessage⟩)

/-- The part of sendMessage that runs when the request settles: on error
the sent text is restored into the input box; on success both returned
messages are appended and, when a changed non-empty session title is
returned, the current session and the session list are retitled; in every
case isSending is cleared. -/
def sendMessageSettle (st : ChatState) (messageText : String)
    (outcome : Except String ChatResponse) : ChatState :=
  match outcome with
  | Except.error _ =>
    { st with newMessage := messageText, isSending := false }
  | Except.ok resp =>
    match st.currentSession, resp.session_title with
    | some cs, some t =>
      if t ≠ "" ∧ t ≠ cs.title then
        { st with
            messages := st.messages ++ [resp.user_message, resp.ai_response],
            currentSession := some { cs with title := t },
            sessions := st.sessions.map
              (fun s => if s.id = cs.id then { s with title := t } else s),
            isSending := false }
      else
        { st with
            messages := st.messages ++ [resp.user_message, resp.ai_response],
            isSending := false }
    | _, _ =>
      { st with
          messages := st.messages ++ [resp.user_message, resp.ai_response],
          isSending := false }

/-- Claim C9: sendMessage is single-flight — it issues no request while a
send is in flight, while the trimmed input is empty, or while no session
is selected; whenever it does issue a request it has set isSending, a
second start before settling is a no-op, and settling always clears
isSending. -/
theorem sendMessage_single_flight (st : ChatState) :
    (st.isSending = true → sendMessageStart st = (st, none))
    ∧ (jsTrim st.newMessage = "" → sendMessageStart st = (st, none))
    ∧ (st.currentSession = none → sendMessageStart st = (st, none))
    ∧ (∀ rq, (sendMessageStart st).2 = some rq →
        (sendMessageStart st).1.isSending = true
        ∧ sendMessageStart (sendMessageStart st).1 = ((sendMessageStart st).1, none))
    ∧ (∀ mt o, (sendMessageSettle st mt o).isSending = false) := by
  refine ⟨?_, ?_, ?_, ?_, ?_⟩
  · intro hs
    unfold sendMessageStart
    cases hc : st.currentSession with
    | none => rfl
    | some cs =>
      dsimp only
      rw [if_pos (Or.inr hs)]
  · intro hs
    unfold sendMessageStart
    cases hc : st.currentSession with
    | none => rfl
    | some cs =>
      dsimp only
      rw [if_pos (Or.inl hs)]
  · intro hs
    unfold sendMessageStart
    rw [hs]
  · intro rq hrq
    cases hc : st.currentSession with
    | none =>
      have hst : sendMessageStart st = (st, none) := by
        unfold sendMessageStart
        rw [hc]
      rw [hst] at hrq
      exact Option.noConfusion hrq
    | some cs =>
      by_cases hcond : jsTrim st.newMessage = "" ∨ st.isSending = true
      · have hst : sendMessageStart st = (st, none) := by
          unfold sendMessageStart
          rw [hc]
          dsimp only
          rw [if_pos hcond]
        rw [hst] at hrq
        exact Option.noConfusion hrq
      · have hst : sendMessageStart st =
            ({ st with newMessage := "", isSending := true },
             some ⟨cs.id, jsTrim st.newMessage⟩) := by
          unfold sendMessageStart
          rw [hc]
          dsimp only
          rw [if_neg hcond]
        rw [hst]
        refine ⟨rfl, ?_⟩
        unfold sendMessageStart
        dsimp only
        rw [hc]
        dsimp only
        rw [if_pos (Or.inr rfl)]
  · intro mt o
    cases o with
    | error e => rfl
    | ok resp =>
      unfold sendMessageSettle
      dsimp only
      cases hc : st.currentSession with
      | none => rfl
      | some cs =>
        cases hts : resp.session_title with
        | none => rfl
        | some t =>
          dsimp only
          by_cases hcond : t ≠ "" ∧ t ≠ cs.title
          · rw [if_pos hcond]
          · rw [if_neg hcond]

set_option maxRecDepth 8000 in
/-- Witness for C9 at concrete component states. -/
theorem sendMessage_single_flight_witness :
    sendMessageStart ⟨[], some ⟨1, "s", "c", none⟩, [], "hello", true⟩ =
      (⟨[], some ⟨1, "s", "c", none⟩, [], "hello", true⟩, none)
    ∧ ((sendMessageStart ⟨[], some ⟨1, "s", "c", none⟩, [], "hello", false⟩).1.isSending = true
      ∧ sendMessageStart (sendMessageStart
            ⟨[], some ⟨1, "s", "c", none⟩, [], "hello", false⟩).1 =
          ((sendMessageStart ⟨[], some ⟨1, "s", "c", none⟩, [], "hello", false⟩).1, none))
    ∧ (sendMessageSettle ⟨[], none, [], "x", true⟩ "y" (Except.error "boom")).isSending
        = false :=
  ⟨(sendMessage_single_flight ⟨[], some ⟨1, "s", "c", none⟩, [], "hello", true⟩).1 rfl,
   (sendMessage_single_flight ⟨[], some ⟨1, "s", "c", none⟩, [], "hello", false⟩).2.2.2.1
     ⟨1, "hello"⟩ (by decide),
   (sendMessage_single_flight ⟨[], none, [], "x", true⟩).2.2.2.2 "y" (Except.error "boom")⟩

/-- Claim C10: when the turn request fails the displayed message list is
unchanged and the sent text is restored into the input box; on success
exactly the returned user message and then the returned assistant message
are appended. -/
theorem sendMessage_outcome_display (st : ChatState) (mt e : String)
    (resp : ChatResponse) :
    (sendMessageSettle st mt (Except.error e)).messages = st.messages
    ∧ (sendMessageSettle st mt (Except.error e)).newMessage = mt
    ∧ (sendMessageSettle st mt (Except.ok resp)).messages =
        st.messages ++ [resp.user_message, resp.ai_response] := by
  refine ⟨rfl, rfl, ?_⟩
  unfold sendMessageSettle
  dsimp only
  cases hc : st.currentSession with
  | none => rfl
  | some cs =>
    cases hts : resp.session_title with
    | none => rfl
    | some t =>
      dsimp only
      by_cases hcond : t ≠ "" ∧ t ≠ cs.title
      · rw [if_pos hcond]
      · rw [if_neg hcond]
